import Mathlib

/-!
Shallow embedding of the identity-provider configuration decoder
(`idp/idp.go`) of the candid repository, together with theorems checking
the natural-language specification against it.

The Go code decodes a YAML record into an `IdentityProvider` value with a
string discriminant and an optional keystone payload.  The YAML layer is
supplied to `UnmarshalYAML` as a callback `unmarshal func(interface{}) error`;
we model the record it draws from as a `Record` whose fields are either a
string scalar, absent, or a value that fails to decode into a string
(carrying the decode error message of the YAML layer).
-/

namespace Idp

/-- The recognised discriminant `"usso"` (constant `UbuntuSSO` in the source). -/
def UbuntuSSO : String := "usso"

/-- The recognised discriminant `"usso_oauth"` (constant `UbuntuSSOOAuth`). -/
def UbuntuSSOOAuth : String := "usso_oauth"

/-- The recognised discriminant `"agent"` (constant `Agent`). -/
def Agent : String := "agent"

/-- The recognised discriminant `"keystone"` (constant `Keystone`). -/
def Keystone : String := "keystone"

/-- The recognised discriminant `"keystone_userpass"` (constant `KeystoneUserpass`). -/
def KeystoneUserpass : String := "keystone_userpass"

/-- The recognised discriminant `"keystone_token"` (constant `KeystoneToken`). -/
def KeystoneToken : String := "keystone_token"

/-- `KeystoneParams` holds the parameters to use with a keystone identity
provider: `Name`, `Domain`, `Description`, `URL`, all strings (in Go, absent
YAML fields leave the zero value `""`). -/
structure KeystoneParams where
  Name : String
  Domain : String
  Description : String
  URL : String
deriving DecidableEq, Repr

/-- `IdentityProvider` describes the configuration of an identity provider:
a discriminant `Type` (field `Type'` here, since `Type` is reserved in Lean)
and a `Config` payload.  In the source `Config` is `interface{}`, which in
this package is either `nil` or a `*KeystoneParams`; we model it as
`Option KeystoneParams`. -/
structure IdentityProvider where
  Type' : String
  Config : Option KeystoneParams
deriving DecidableEq, Repr

/-- One field of the raw YAML record: a string scalar, an absent field
(which Go's YAML decoding leaves at the zero value `""`), or a value whose
structural decode into a string fails, carrying the YAML layer's error
message. -/
inductive FieldVal where
  | str (s : String)
  | absent
  | malformed (m : String)
deriving DecidableEq, Repr

/-- The raw YAML record handed to the decoder through the `unmarshal`
callback: the discriminant field `type` and the four keystone payload
fields `name`, `domain`, `description`, `url`. -/
structure Record where
  typeField : FieldVal
  name : FieldVal
  domain : FieldVal
  description : FieldVal
  url : FieldVal
deriving DecidableEq, Repr

/-- The errors the decoder can produce, mirroring the errgo constructions in
the source: `yamlDecode` is a structural failure of the YAML layer itself
(carrying its message); `unrecognisedType` is
`errgo.Newf("unrecognised identity provider type %q", t)`;
`nameNotSpecified` and `urlNotSpecified` are
`errgo.Newf("name not specified")` and `errgo.Newf("url not specified")`;
`notefType` and `notefKeystone` are the two `errgo.Notef` wrappings in
`UnmarshalYAML`; `mask` is the `errgo.Mask` wrapping in
`unmarshalKeystone`. -/
inductive Err where
  | yamlDecode (m : String)
  | unrecognisedType (t : String)
  | nameNotSpecified
  | urlNotSpecified
  | notefType (cause : Err)
  | notefKeystone (cause : Err)
  | mask (cause : Err)
deriving DecidableEq, Repr

/-- Escape each character of a string for Go's `%q` verb, restricted to
quote and backslash escaping (the only escapes relevant to the
discriminant strings handled here). -/
def goQuoteAux : List Char → String
  | [] => ""
  | c :: cs =>
    (if c = '"' then "\\\"" else if c = '\\' then "\\\\" else String.singleton c) ++ goQuoteAux cs

/-- Go's `%q` verb, restricted to quote and backslash escaping. -/
def goQuote (s : String) : String :=
  "\"" ++ goQuoteAux s.data ++ "\""

/-- The error message carried by each `Err`, following errgo's rendering:
`Notef` prepends its message and a colon, `Mask` keeps the cause's message. -/
def Err.msg : Err → String
  | .yamlDecode m => m
  | .unrecognisedType t => "unrecognised identity provider type " ++ goQuote t
  | .nameNotSpecified => "name not specified"
  | .urlNotSpecified => "url not specified"
  | .notefType c => "cannot unmarshal identity provider type: " ++ c.msg
  | .notefKeystone c => "cannot unmarshal keystone configuration: " ++ c.msg
  | .mask c => c.msg

/-- The wrapped cause of an error, when it has one (errgo's `Cause`/
underlying error for `Notef` and `Mask` wrappings). -/
def Err.cause : Err → Option Err
  | .notefType c => some c
  | .notefKeystone c => some c
  | .mask c => some c
  | _ => none

/-- Decoding one record field into a Go `string`: a scalar yields its
string, an absent field yields the zero value `""`, a malformed field
yields the YAML layer's error. -/
def FieldVal.asString : FieldVal → Except Err String
  | .str s => .ok s
  | .absent => .ok ""
  | .malformed m => .error (.yamlDecode m)

/-- The first call of the `unmarshal` callback in `UnmarshalYAML`: decode
only the discriminant field `type` into `struct { Type string }`. -/
def decodeTypeField (r : Record) : Except Err String :=
  r.typeField.asString

/-- The call of the `unmarshal` callback in `unmarshalKeystone`: decode the
full record into a `KeystoneParams` (fields in declaration order). -/
def decodeKeystoneParams (r : Record) : Except Err KeystoneParams := do
  let n ← r.name.asString
  let d ← r.domain.asString
  let de ← r.description.asString
  let u ← r.url.asString
  return { Name := n, Domain := d, Description := de, URL := u }

/-- `UbuntuSSOIdentityProvider` is the identity provider that uses Ubuntu SSO. -/
def UbuntuSSOIdentityProvider : IdentityProvider :=
  { Type' := UbuntuSSO, Config := none }

/-- `UbuntuSSOOAuthIdentityProvider` is the identity provider that uses
Ubuntu SSO OAuth. -/
def UbuntuSSOOAuthIdentityProvider : IdentityProvider :=
  { Type' := UbuntuSSOOAuth, Config := none }

/-- `AgentIdentityProvider` is the identity provider that uses the agent
login mechanism. -/
def AgentIdentityProvider : IdentityProvider :=
  { Type' := Agent, Config := none }

/-- `newKeystoneIdentityProvider` creates a new identity provider using a
keystone service with the specified type (the shared builder). -/
def newKeystoneIdentityProvider (t : String) (p : KeystoneParams) : IdentityProvider :=
  { Type' := t, Config := some p }

/-- `KeystoneIdentityProvider` creates a new identity provider using a
keystone service. -/
def KeystoneIdentityProvider (p : KeystoneParams) : IdentityProvider :=
  newKeystoneIdentityProvider Keystone p

/-- `KeystoneUserpassIdentityProvider` creates a new identity provider using
a keystone service with a non-interactive interface. -/
def KeystoneUserpassIdentityProvider (p : KeystoneParams) : IdentityProvider :=
  newKeystoneIdentityProvider KeystoneUserpass p

/-- `KeystoneTokenIdentityProvider` creates a new identity provider that
identifies users using Keystone user tokens. -/
def KeystoneTokenIdentityProvider (p : KeystoneParams) : IdentityProvider :=
  newKeystoneIdentityProvider KeystoneToken p

/-- `unmarshalKeystone` unmarshals the keystone configuration: decode the
full record into `KeystoneParams` (masking a structural failure), then
require `Name` and `URL` to be non-empty, in that order. -/
def unmarshalKeystone (t : String) (r : Record) : Except Err IdentityProvider :=
  match decodeKeystoneParams r with
  | .error e => .error (.mask e)
  | .ok p =>
    if p.Name = "" then .error .nameNotSpecified
    else if p.URL = "" then .error .urlNotSpecified
    else .ok (newKeystoneIdentityProvider t p)

/-- The zero `IdentityProvider` value (`IdentityProvider{}` in Go), written
into the receiver by the multi-assignment in the keystone branch of
`UnmarshalYAML` when `unmarshalKeystone` fails. -/
def zeroIdentityProvider : IdentityProvider :=
  { Type' := "", Config := none }

/-- `UnmarshalYAML` unmarshals an `IdentityProvider` from configuration.
The Go method mutates its pointer receiver and returns an error; we model
it as taking the current receiver value and the record, and returning the
new receiver value together with the optional error.  On the
unrecognised-type path and on a failure to decode the `type` field the
receiver is untouched; on a keystone failure the multi-assignment
`*idp, err = unmarshalKeystone(...)` overwrites the receiver with the zero
value. -/
def UnmarshalYAML (idp : IdentityProvider) (r : Record) : IdentityProvider × Option Err :=
  match decodeTypeField r with
  | .error e => (idp, some (.notefType e))
  | .ok t =>
    if t = UbuntuSSO then (UbuntuSSOIdentityProvider, none)
    else if t = UbuntuSSOOAuth then (UbuntuSSOOAuthIdentityProvider, none)
    else if t = Agent then (AgentIdentityProvider, none)
    else if t = Keystone ∨ t = KeystoneUserpass ∨ t = KeystoneToken then
      match unmarshalKeystone t r with
      | .error e => (zeroIdentityProvider, some (.notefKeystone e))
      | .ok v => (v, none)
    else (idp, some (.unrecognisedType t))

/-- The keystone family of discriminants, the three cases sharing the
`case Keystone, KeystoneUserpass, KeystoneToken` branch of the switch. -/
def keystoneFamily (t : String) : Prop :=
  t = Keystone ∨ t = KeystoneUserpass ∨ t = KeystoneToken

instance (t : String) : Decidable (keystoneFamily t) := by
  unfold keystoneFamily; infer_instance

/-- Membership in the closed set of six recognised discriminants. -/
def recognisedType (t : String) : Prop :=
  t = UbuntuSSO ∨ t = UbuntuSSOOAuth ∨ t = Agent ∨ keystoneFamily t

instance (t : String) : Decidable (recognisedType t) := by
  unfold recognisedType; infer_instance

end Idp

namespace Idp

/-! Helper lemmas characterising each branch of `UnmarshalYAML`. -/

lemma unmarshalYAML_typeErr (idp : IdentityProvider) (r : Record) (e : Err)
    (hdec : decodeTypeField r = .error e) :
    UnmarshalYAML idp r = (idp, some (.notefType e)) := by
  simp [UnmarshalYAML, hdec]

lemma unmarshalYAML_singleton (idp : IdentityProvider) (r : Record) (t : String)
    (hdec : decodeTypeField r = .ok t)
    (ht : t = UbuntuSSO ∨ t = UbuntuSSOOAuth ∨ t = Agent) :
    UnmarshalYAML idp r = ({ Type' := t, Config := none }, none) := by
  rcases ht with h | h | h <;> subst h <;>
    simp [UnmarshalYAML, hdec, UbuntuSSO, UbuntuSSOOAuth, Agent,
      UbuntuSSOIdentityProvider, UbuntuSSOOAuthIdentityProvider, AgentIdentityProvider]

lemma unmarshalYAML_keystoneFam (idp : IdentityProvider) (r : Record) (t : String)
    (hdec : decodeTypeField r = .ok t) (hfam : keystoneFamily t) :
    UnmarshalYAML idp r =
      match unmarshalKeystone t r with
      | .error e => (zeroIdentityProvider, some (.notefKeystone e))
      | .ok v => (v, none) := by
  rcases hfam with h | h | h <;> subst h <;>
    simp [UnmarshalYAML, hdec, UbuntuSSO, UbuntuSSOOAuth, Agent,
      Keystone, KeystoneUserpass, KeystoneToken]

lemma unmarshalYAML_unrecognised (idp : IdentityProvider) (r : Record) (t : String)
    (hdec : decodeTypeField r = .ok t) (h : ¬ recognisedType t) :
    UnmarshalYAML idp r = (idp, some (.unrecognisedType t)) := by
  rw [recognisedType, keystoneFamily] at h
  push_neg at h
  obtain ⟨h1, h2, h3, h4, h5, h6⟩ := h
  simp [UnmarshalYAML, hdec, h1, h2, h3, h4, h5, h6]

end Idp

namespace Idp

/-- Claim C1: for every record whose `type` field is one of the six
recognised discriminants and that satisfies the variant's field
requirements (for the keystone family: the payload decodes and `Name` and
`URL` are non-empty; no requirement for the singletons), decode succeeds
and returns an `IdentityProvider` whose `Type` field equals the record's
discriminant string exactly. -/
theorem decode_recognised_type_matches (idp : IdentityProvider) (r : Record) (t : String)
    (hdec : decodeTypeField r = .ok t)
    (hrec : recognisedType t)
    (hkey : keystoneFamily t → ∃ p, decodeKeystoneParams r = .ok p ∧ p.Name ≠ "" ∧ p.URL ≠ "") :
    ∃ v, UnmarshalYAML idp r = (v, none) ∧ v.Type' = t := by
  rcases hrec with h | h | h | hfam
  · exact ⟨{ Type' := t, Config := none },
      unmarshalYAML_singleton idp r t hdec (Or.inl h), rfl⟩
  · exact ⟨{ Type' := t, Config := none },
      unmarshalYAML_singleton idp r t hdec (Or.inr (Or.inl h)), rfl⟩
  · exact ⟨{ Type' := t, Config := none },
      unmarshalYAML_singleton idp r t hdec (Or.inr (Or.inr h)), rfl⟩
  · obtain ⟨p, hp, hn, hu⟩ := hkey hfam
    refine ⟨newKeystoneIdentityProvider t p, ?_, rfl⟩
    rw [unmarshalYAML_keystoneFam idp r t hdec hfam]
    simp [unmarshalKeystone, hp, hn, hu]

-- Witness for C1 at the minimal valid keystone record.
theorem decode_recognised_type_matches_witness :
    ∃ v, UnmarshalYAML { Type' := "x", Config := none }
        ⟨.str "keystone", .str "idm", .absent, .absent, .str "https://example.test"⟩ = (v, none) ∧
      v.Type' = "keystone" :=
  decode_recognised_type_matches { Type' := "x", Config := none }
    ⟨.str "keystone", .str "idm", .absent, .absent, .str "https://example.test"⟩
    "keystone" rfl (by decide)
    (fun _ => ⟨{ Name := "idm", Domain := "", Description := "", URL := "https://example.test" },
      rfl, by decide, by decide⟩)

/-- Claim C2: for a keystone-family record whose payload decodes, decoding
fails with the error naming `name` ("name not specified") when `name` is
absent or empty, and — `name` being present — fails with the error naming
`url` ("url not specified") when `url` is absent or empty; the error is
returned, never replaced by a default provider. -/
theorem keystone_missing_field (idp : IdentityProvider) (r : Record) (t : String)
    (p : KeystoneParams)
    (hdec : decodeTypeField r = .ok t) (hfam : keystoneFamily t)
    (hp : decodeKeystoneParams r = .ok p) :
    (p.Name = "" →
      UnmarshalYAML idp r = (zeroIdentityProvider, some (.notefKeystone .nameNotSpecified)) ∧
      Err.nameNotSpecified.msg = "name not specified") ∧
    (p.Name ≠ "" → p.URL = "" →
      UnmarshalYAML idp r = (zeroIdentityProvider, some (.notefKeystone .urlNotSpecified)) ∧
      Err.urlNotSpecified.msg = "url not specified") := by
  constructor
  · intro hn
    rw [unmarshalYAML_keystoneFam idp r t hdec hfam]
    simp [unmarshalKeystone, hp, hn, Err.msg]
  · intro hn hu
    rw [unmarshalYAML_keystoneFam idp r t hdec hfam]
    simp [unmarshalKeystone, hp, hn, hu, Err.msg]

-- Witness for C2: `type: keystone`, `url` present, `name` absent.
theorem keystone_missing_field_witness :
    UnmarshalYAML { Type' := "x", Config := none }
        ⟨.str "keystone", .absent, .absent, .absent, .str "https://example.test"⟩ =
      (zeroIdentityProvider, some (.notefKeystone .nameNotSpecified)) ∧
    Err.nameNotSpecified.msg = "name not specified" :=
  (keystone_missing_field { Type' := "x", Config := none }
    ⟨.str "keystone", .absent, .absent, .absent, .str "https://example.test"⟩
    "keystone" { Name := "", Domain := "", Description := "", URL := "https://example.test" }
    rfl (Or.inl rfl) rfl).1 rfl

/-- Claim C3: for every record whose `type` value is not one of the six
recognised discriminants, decode fails with the unrecognised-type error
carrying the offending discriminant string verbatim, and its message quotes
that string; the receiver is untouched — no default provider is
substituted. -/
theorem decode_unrecognised_type (idp : IdentityProvider) (r : Record) (t : String)
    (hdec : decodeTypeField r = .ok t) (h : ¬ recognisedType t) :
    UnmarshalYAML idp r = (idp, some (.unrecognisedType t)) ∧
    (Err.unrecognisedType t).msg = "unrecognised identity provider type " ++ goQuote t :=
  ⟨unmarshalYAML_unrecognised idp r t hdec h, rfl⟩

-- Witness for C3 at `type: bogus`: the message carries "bogus" verbatim.
theorem decode_unrecognised_type_witness :
    UnmarshalYAML { Type' := "x", Config := none }
        ⟨.str "bogus", .absent, .absent, .absent, .absent⟩ =
      ({ Type' := "x", Config := none }, some (.unrecognisedType "bogus")) ∧
    (Err.unrecognisedType "bogus").msg = "unrecognised identity provider type \"bogus\"" :=
  ⟨(decode_unrecognised_type { Type' := "x", Config := none }
      ⟨.str "bogus", .absent, .absent, .absent, .absent⟩ "bogus" rfl (by decide)).1,
   by decide⟩

/-- Claim C4: decoding the record with `type: keystone`, `name: idm`,
`url: https://example.test` and no other fields succeeds, with `Config`
payload `Name="idm"`, `URL="https://example.test"`, `Domain=""`,
`Description=""`. -/
theorem decode_keystone_minimal (idp : IdentityProvider) :
    UnmarshalYAML idp ⟨.str "keystone", .str "idm", .absent, .absent, .str "https://example.test"⟩ =
      ({ Type' := "keystone",
         Config := some { Name := "idm", Domain := "", Description := "",
                          URL := "https://example.test" } }, none) :=
  rfl

/-- Claim C5: any two decodes of records bearing the same singleton
discriminant (`usso`, `usso_oauth` or `agent`) — from any receivers and any
records — yield value-equal results, carrying no payload (`Config` is
absent) and no error. -/
theorem singleton_decode_stable (t : String) (i1 i2 : IdentityProvider) (r1 r2 : Record)
    (ht : t = UbuntuSSO ∨ t = UbuntuSSOOAuth ∨ t = Agent)
    (h1 : decodeTypeField r1 = .ok t) (h2 : decodeTypeField r2 = .ok t) :
    UnmarshalYAML i1 r1 = UnmarshalYAML i2 r2 ∧
    (UnmarshalYAML i1 r1).1.Config = none ∧ (UnmarshalYAML i1 r1).2 = none := by
  rw [unmarshalYAML_singleton i1 r1 t h1 ht, unmarshalYAML_singleton i2 r2 t h2 ht]
  exact ⟨rfl, rfl, rfl⟩

-- Witness for C5: two decodes of `type: usso` from different receivers.
theorem singleton_decode_stable_witness :
    UnmarshalYAML { Type' := "x", Config := none }
        ⟨.str "usso", .absent, .absent, .absent, .absent⟩ =
      UnmarshalYAML { Type' := "y", Config := some { Name := "n", Domain := "", Description := "", URL := "u" } }
        ⟨.str "usso", .str "ignored", .absent, .absent, .absent⟩ ∧
    (UnmarshalYAML { Type' := "x", Config := none }
        ⟨.str "usso", .absent, .absent, .absent, .absent⟩).1.Config = none ∧
    (UnmarshalYAML { Type' := "x", Config := none }
        ⟨.str "usso", .absent, .absent, .absent, .absent⟩).2 = none :=
  singleton_decode_stable "usso" { Type' := "x", Config := none }
    { Type' := "y", Config := some { Name := "n", Domain := "", Description := "", URL := "u" } }
    ⟨.str "usso", .absent, .absent, .absent, .absent⟩
    ⟨.str "usso", .str "ignored", .absent, .absent, .absent⟩
    (Or.inl rfl) rfl rfl

end Idp

namespace Idp

/-- Claim C6: for every `KeystoneParams` value `p`, the three keystone
constructors produce values with identical payload contents (`Config`
holds exactly `p` in each) differing only in the discriminant (`keystone`,
`keystone_userpass`, `keystone_token` respectively), and each equals the
shared builder `newKeystoneIdentityProvider` applied to its discriminant
string and `p`. -/
theorem keystone_constructors_share_builder (p : KeystoneParams) :
    KeystoneIdentityProvider p = newKeystoneIdentityProvider Keystone p ∧
    KeystoneUserpassIdentityProvider p = newKeystoneIdentityProvider KeystoneUserpass p ∧
    KeystoneTokenIdentityProvider p = newKeystoneIdentityProvider KeystoneToken p ∧
    (KeystoneIdentityProvider p).Type' = "keystone" ∧
    (KeystoneUserpassIdentityProvider p).Type' = "keystone_userpass" ∧
    (KeystoneTokenIdentityProvider p).Type' = "keystone_token" ∧
    (KeystoneIdentityProvider p).Config = some p ∧
    (KeystoneUserpassIdentityProvider p).Config = some p ∧
    (KeystoneTokenIdentityProvider p).Config = some p :=
  ⟨rfl, rfl, rfl, rfl, rfl, rfl, rfl, rfl, rfl⟩

/-- Claim C7: every structural decode failure is wrapped and propagated,
never swallowed, and no provider is produced: a failure to decode the
`type` field is returned wrapped by the type note with the original error
as its cause, and a failure of the full keystone payload decode is
returned wrapped (mask, then keystone note) with the original error still
reachable as the cause chain; in both cases the error component is set. -/
theorem structural_decode_failure_propagated (idp : IdentityProvider) (r : Record) (e : Err) :
    (decodeTypeField r = .error e →
      UnmarshalYAML idp r = (idp, some (.notefType e)) ∧
      (Err.notefType e).cause = some e) ∧
    (∀ t, decodeTypeField r = .ok t → keystoneFamily t →
      decodeKeystoneParams r = .error e →
      UnmarshalYAML idp r = (zeroIdentityProvider, some (.notefKeystone (.mask e))) ∧
      (Err.notefKeystone (.mask e)).cause = some (.mask e) ∧
      (Err.mask e).cause = some e) := by
  constructor
  · intro h
    exact ⟨unmarshalYAML_typeErr idp r e h, rfl⟩
  · intro t hdec hfam hke
    refine ⟨?_, rfl, rfl⟩
    rw [unmarshalYAML_keystoneFam idp r t hdec hfam]
    simp [unmarshalKeystone, hke]

-- Witness for C7: a record whose `type` field fails to decode.
theorem structural_decode_failure_propagated_witness :
    UnmarshalYAML { Type' := "x", Config := none }
        ⟨.malformed "cannot unmarshal !!map into string", .absent, .absent, .absent, .absent⟩ =
      ({ Type' := "x", Config := none },
        some (.notefType (.yamlDecode "cannot unmarshal !!map into string"))) ∧
    (Err.notefType (.yamlDecode "cannot unmarshal !!map into string")).cause =
      some (.yamlDecode "cannot unmarshal !!map into string") :=
  (structural_decode_failure_propagated { Type' := "x", Config := none }
    ⟨.malformed "cannot unmarshal !!map into string", .absent, .absent, .absent, .absent⟩
    (.yamlDecode "cannot unmarshal !!map into string")).1 rfl

/-- Claim C8: error results are not uniformly atomic with respect to the
receiver: when the `type` field fails to decode, or the discriminant is
unrecognised, the receiver is left unchanged; but when a keystone-family
record fails (structural payload decode error or missing `name`/`url`),
the receiver is overwritten with the zero `IdentityProvider`
(`Type = ""`, `Config` nil) before the error is returned. -/
theorem receiver_overwrite_on_keystone_failure (idp : IdentityProvider) (r : Record) :
    (∀ e, decodeTypeField r = .error e → (UnmarshalYAML idp r).1 = idp) ∧
    (∀ t, decodeTypeField r = .ok t → ¬ recognisedType t → (UnmarshalYAML idp r).1 = idp) ∧
    (∀ t e, decodeTypeField r = .ok t → keystoneFamily t → unmarshalKeystone t r = .error e →
      (UnmarshalYAML idp r).1 = zeroIdentityProvider ∧
      zeroIdentityProvider = { Type' := "", Config := none } ∧
      (UnmarshalYAML idp r).2 = some (.notefKeystone e)) := by
  refine ⟨?_, ?_, ?_⟩
  · intro e h
    rw [unmarshalYAML_typeErr idp r e h]
  · intro t hdec h
    rw [unmarshalYAML_unrecognised idp r t hdec h]
  · intro t e hdec hfam hke
    rw [unmarshalYAML_keystoneFam idp r t hdec hfam, hke]
    exact ⟨rfl, rfl, rfl⟩

-- Witness for C8: a keystone record with a missing name zeroes a non-zero
-- receiver.
theorem receiver_overwrite_on_keystone_failure_witness :
    (UnmarshalYAML { Type' := "x", Config := some { Name := "a", Domain := "b", Description := "c", URL := "d" } }
        ⟨.str "keystone", .absent, .absent, .absent, .str "u"⟩).1 = zeroIdentityProvider ∧
    zeroIdentityProvider = { Type' := "", Config := none } ∧
    (UnmarshalYAML { Type' := "x", Config := some { Name := "a", Domain := "b", Description := "c", URL := "d" } }
        ⟨.str "keystone", .absent, .absent, .absent, .str "u"⟩).2 =
      some (.notefKeystone .nameNotSpecified) :=
  (receiver_overwrite_on_keystone_failure
    { Type' := "x", Config := some { Name := "a", Domain := "b", Description := "c", URL := "d" } }
    ⟨.str "keystone", .absent, .absent, .absent, .str "u"⟩).2.2
    "keystone" .nameNotSpecified rfl (Or.inl rfl) rfl

/-- Claim C9: the three keystone constructors perform no validation: for
every `KeystoneParams` with empty `Name` or empty `URL`, each constructor
still returns an `IdentityProvider` carrying exactly those fields, while
the decode path rejects the same payload with an error. -/
theorem keystone_constructors_unvalidated (p : KeystoneParams)
    (h : p.Name = "" ∨ p.URL = "") :
    (KeystoneIdentityProvider p).Config = some p ∧
    (KeystoneUserpassIdentityProvider p).Config = some p ∧
    (KeystoneTokenIdentityProvider p).Config = some p ∧
    (∀ idp r t, decodeTypeField r = .ok t → keystoneFamily t →
      decodeKeystoneParams r = .ok p → (UnmarshalYAML idp r).2 ≠ none) := by
  refine ⟨rfl, rfl, rfl, ?_⟩
  intro idp r t hdec hfam hp
  rw [unmarshalYAML_keystoneFam idp r t hdec hfam]
  rcases h with hn | hu
  · simp [unmarshalKeystone, hp, hn]
  · by_cases hn : p.Name = ""
    · simp [unmarshalKeystone, hp, hn]
    · simp [unmarshalKeystone, hp, hn, hu]

-- Witness for C9 at the all-empty KeystoneParams.
theorem keystone_constructors_unvalidated_witness :
    (KeystoneIdentityProvider { Name := "", Domain := "", Description := "", URL := "" }).Config =
      some { Name := "", Domain := "", Description := "", URL := "" } ∧
    (UnmarshalYAML { Type' := "x", Config := none }
        ⟨.str "keystone", .absent, .absent, .absent, .absent⟩).2 ≠ none :=
  ⟨(keystone_constructors_unvalidated
      { Name := "", Domain := "", Description := "", URL := "" } (Or.inl rfl)).1,
   (keystone_constructors_unvalidated
      { Name := "", Domain := "", Description := "", URL := "" } (Or.inl rfl)).2.2.2
      { Type' := "x", Config := none }
      ⟨.str "keystone", .absent, .absent, .absent, .absent⟩
      "keystone" rfl (Or.inl rfl) rfl⟩

/-- Claim C10: keystone validation checks `Name` strictly before `URL`: for
every keystone-family record whose payload decodes with both `Name` and
`URL` empty, decode reports the missing-name error ("name not specified"),
never the missing-url error. -/
theorem keystone_name_checked_before_url (idp : IdentityProvider) (r : Record) (t : String)
    (p : KeystoneParams)
    (hdec : decodeTypeField r = .ok t) (hfam : keystoneFamily t)
    (hp : decodeKeystoneParams r = .ok p)
    (hn : p.Name = "") (_hu : p.URL = "") :
    UnmarshalYAML idp r = (zeroIdentityProvider, some (.notefKeystone .nameNotSpecified)) ∧
    Err.nameNotSpecified.msg = "name not specified" := by
  rw [unmarshalYAML_keystoneFam idp r t hdec hfam]
  simp [unmarshalKeystone, hp, hn, Err.msg]

-- Witness for C10: `type: keystone_userpass` with name and url both absent.
theorem keystone_name_checked_before_url_witness :
    UnmarshalYAML { Type' := "x", Config := none }
        ⟨.str "keystone_userpass", .absent, .absent, .absent, .absent⟩ =
      (zeroIdentityProvider, some (.notefKeystone .nameNotSpecified)) ∧
    Err.nameNotSpecified.msg = "name not specified" :=
  keystone_name_checked_before_url { Type' := "x", Config := none }
    ⟨.str "keystone_userpass", .absent, .absent, .absent, .absent⟩
    "keystone_userpass" { Name := "", Domain := "", Description := "", URL := "" }
    rfl (Or.inr (Or.inl rfl)) rfl rfl rfl

end Idp
